import Mathlib

/-!
Verification of the IntraView realtime session controller
(`src/pages/ConsolePage.tsx`) against its natural-language specification.

The interactive logic of the page is shallowly embedded: each handler or
callback becomes a pure Lean function over an explicit state, returning the
ordered list of calls it issues to its collaborators (the `RealtimeClient`,
the `WavRecorder` capture device and the `WavStreamPlayer` playback engine).
-/

namespace IntraView

/-- Source tag of a realtime event (`RealtimeEvent.source` in ConsolePage). -/
inductive EventSource
  | client
  | server
deriving DecidableEq, Repr

/-- An entry of the event log (`interface RealtimeEvent` in ConsolePage):
timestamp, source, an optional aggregation counter `count`, and the `type`
field of the raw event payload (the only payload field the logger reads). -/
structure RealtimeEvent where
  time : String
  source : EventSource
  count : Option Nat
  eventType : String
deriving DecidableEq, Repr

/-- The number of times an aggregated log entry has been seen: in the code
the `count` field is absent on a fresh entry and is bumped with
`(lastEvent.count || 0) + 1` on each aggregation, so an entry with
`count = none` has been seen once and an entry with `count = some n`
has been seen `n + 1` times. -/
def repeatCount (e : RealtimeEvent) : Nat :=
  e.count.getD 0 + 1

/-- In-place bump of the counter of the last entry:
`lastEvent.count = (lastEvent.count || 0) + 1`. -/
def bumpCount (e : RealtimeEvent) : RealtimeEvent :=
  { e with count := some (e.count.getD 0 + 1) }

/-- Log update of the `realtime.event` handler (ConsolePage lines 424-436):
if the `event.type` of the last entry equals the `event.type` of the incoming event,
mutate the `count` of the last entry in place (`slice(0, -1).concat(lastEvent)`);
otherwise append the incoming event. -/
def recordRealtimeEvent (log : List RealtimeEvent) (e : RealtimeEvent) :
    List RealtimeEvent :=
  match log.getLast? with
  | some lastEvent =>
      if lastEvent.eventType = e.eventType then
        log.dropLast ++ [bumpCount lastEvent]
      else
        log ++ [e]
  | none => log ++ [e]

/-- The formatted payload of a conversation item, restricted to the fields
the `conversation.updated` handler reads: the accumulated audio buffer
(modelled by its byte length, `0` when absent or empty, matching the
truthiness of `item.formatted.audio?.length`) and the decoded playable
asset `file` (modelled by the byte length of the buffer it was decoded
from, `none` while undecoded). -/
structure FormattedItem where
  audioLen : Nat
  file : Option Nat
deriving DecidableEq, Repr

/-- A conversation item as the `conversation.updated` handler sees it. -/
structure ConversationItem where
  id : String
  status : String
  formatted : FormattedItem
deriving DecidableEq, Repr

/-- The observable effects of the `conversation.updated` handler:
the PCM chunks forwarded to `wavStreamPlayer.add16BitPCM` (track id and
byte length, in order) and the item ids passed to `WavRecorder.decode`,
in order. -/
structure PlayerDecodeState where
  playerChunks : List (String × Nat)
  decodes : List String
deriving DecidableEq, Repr

/-- The `conversation.updated` handler (ConsolePage lines 445-459): if the
delta carries audio, forward it to the playback engine under the id of the item;
if the status of the item is `completed` and its formatted audio buffer is
non-empty, decode the buffer and store the result into `formatted.file`.
`deltaAudio` is the byte length of `delta.audio` (`none` when absent).
Returns the updated effect state and the (in-place mutated) item. -/
def onConversationUpdated (st : PlayerDecodeState) (item : ConversationItem)
    (deltaAudio : Option Nat) : PlayerDecodeState × ConversationItem :=
  let st1 :=
    match deltaAudio with
    | some n => { st with playerChunks := st.playerChunks ++ [(item.id, n)] }
    | none => st
  if item.status = "completed" ∧ item.formatted.audioLen ≠ 0 then
    ({ st1 with decodes := st1.decodes ++ [item.id] },
     { item with formatted := { item.formatted with file := some item.formatted.audioLen } })
  else
    (st1, item)

/-- A call issued to the `RealtimeClient`. -/
inductive ClientCall
  | cancelResponse (trackId : String) (offset : Nat)
  | appendInputAudio (frame : Nat)
  | createResponse
  | deleteItem (id : String)
deriving DecidableEq, Repr

/-- The value returned by `wavStreamPlayer.interrupt()` when a track was
actively playing: the id of the track and the number of samples already played
(the playback engine is not part of the provided sources; per the spec its
`interrupt()` yields `{trackId, samplesPlayed} | undefined`). -/
structure TrackSampleOffset where
  trackId : String
  offset : Nat
deriving DecidableEq, Repr

/-- The `cancelResponse` calls the code issues after an interrupt, shared by
`startRecording` and the `conversation.interrupted` handler: guarded by the
truthiness of `trackSampleOffset?.trackId` (present and non-empty), the call
passes `trackId` and `offset` through unchanged. -/
def cancelCallsFor (r : Option TrackSampleOffset) : List ClientCall :=
  match r with
  | some t => if t.trackId ≠ "" then [ClientCall.cancelResponse t.trackId t.offset] else []
  | none => []

/-- Modelled from the spec: §4.3 says `samplesPlayed` is translated into a
duration before the cancellation call, and §6 types the call as
`cancelResponse(trackId, offsetMs)`; at the fixed 24000 Hz sample rate the
duration in milliseconds is `samplesPlayed * 1000 / 24000`. The call sites of the
repository are compared against this. -/
def specOffsetMs (samplesPlayed : Nat) : Nat :=
  samplesPlayed * 1000 / 24000

/-- An action of the controller, in the order the code performs it. -/
inductive Action
  | setIsRecording (b : Bool)
  | interruptPlayback
  | clientCall (c : ClientCall)
  | startCapture
  | pauseCapture
  | updateSessionTurnDetection (serverVad : Bool)
  | setCanPushToTalk (b : Bool)
deriving DecidableEq, Repr

/-- Whether an action forwards a captured audio frame to the remote client. -/
def Action.isAppendAudio : Action → Bool
  | .clientCall (.appendInputAudio _) => true
  | _ => false

/-- Whether an action is part of the interrupt/cancel sequence. -/
def Action.isInterruptOrCancel : Action → Bool
  | .interruptPlayback => true
  | .clientCall (.cancelResponse _ _) => true
  | _ => false

/-- The part of `startRecording` (ConsolePage lines 238-249) performed before
any frame is captured: set the recording flag, interrupt playback (whose
result is `r`), issue the guarded `cancelResponse`, then start capture. -/
def startRecordingSetup (r : Option TrackSampleOffset) : List Action :=
  [Action.setIsRecording true, Action.interruptPlayback] ++
    (cancelCallsFor r).map Action.clientCall ++
    [Action.startCapture]

/-- The ordered trace of `startRecording` (ConsolePage lines 238-249): the
setup sequence, after which every frame produced by the recorder (`frames`,
as byte lengths) is forwarded via `client.appendInputAudio`. -/
def startRecordingTrace (r : Option TrackSampleOffset) (frames : List Nat) :
    List Action :=
  startRecordingSetup r ++
    frames.map (fun f => Action.clientCall (ClientCall.appendInputAudio f))

/-- The ordered trace of the `conversation.interrupted` handler
(ConsolePage lines 438-444): interrupt playback, then the guarded
`cancelResponse`. -/
def conversationInterruptedTrace (r : Option TrackSampleOffset) : List Action :=
  Action.interruptPlayback :: (cancelCallsFor r).map Action.clientCall

/-- The `conversation.interrupted` handler with the outcome of the awaited
`client.cancelResponse` made explicit: the `await` has no `try`/`catch`
around it, so a rejection escapes the async handler as an error instead of
being logged and swallowed. `cancelOk` tells whether `cancelResponse`
succeeds. -/
def conversationInterruptedRun (r : Option TrackSampleOffset) (cancelOk : Bool) :
    Except String (List Action) :=
  match r with
  | none => .ok [Action.interruptPlayback]
  | some t =>
      if t.trackId ≠ "" then
        if cancelOk then
          .ok [Action.interruptPlayback,
               Action.clientCall (ClientCall.cancelResponse t.trackId t.offset)]
        else
          .error ("cancelResponse rejected")
      else
        .ok [Action.interruptPlayback]

/-- Outcomes of the three awaited `open()` calls inside `connectConversation`
(`wavRecorder.begin()`, `wavStreamPlayer.connect()`, `client.connect()`);
`true` means the call succeeds. -/
structure ConnectEnv where
  recorderBeginOk : Bool
  playerConnectOk : Bool
  clientConnectOk : Bool
deriving DecidableEq, Repr

/-- The controller state touched by `connectConversation`: the connected
flag and the transient state it resets, plus one open-flag per sub-resource
and whether the seed instruction was sent and continuous capture started. -/
structure ControllerState where
  isConnected : Bool
  realtimeEvents : List RealtimeEvent
  memoryKv : List (String × String)
  recorderOpen : Bool
  playerOpen : Bool
  clientOpen : Bool
  seedSent : Bool
  capturing : Bool
deriving DecidableEq, Repr

/-- The state of a freshly mounted ConsolePage. -/
def initialState : ControllerState :=
  { isConnected := false, realtimeEvents := [], memoryKv := []
    recorderOpen := false, playerOpen := false, clientOpen := false
    seedSent := false, capturing := false }

/-- Result of a `connectConversation` attempt: `ok`, or the rejection of the
named awaited call propagating unchanged (there is no `try`/`catch` in
`connectConversation`, so nothing wraps or intercepts it). -/
inductive ConnectResult
  | ok
  | raised (failedCall : String)
deriving DecidableEq, Repr

/-- The callback `connectConversation` (ConsolePage lines 156-204): first sets
`isConnected` and resets the transient state, then awaits
`wavRecorder.begin()`, `wavStreamPlayer.connect()` and `client.connect()` in
that order with no error handling, sends the seed instruction, and begins
continuous capture when the turn detection of the session is `server_vad`.
A failing open leaves every earlier effect in place. -/
def connectConversation (env : ConnectEnv) (serverVad : Bool)
    (st : ControllerState) : ControllerState × ConnectResult :=
  let st0 := { st with isConnected := true, realtimeEvents := [], memoryKv := [] }
  if ¬ env.recorderBeginOk then (st0, .raised ("wavRecorder.begin"))
  else
    let st1 := { st0 with recorderOpen := true }
    if ¬ env.playerConnectOk then (st1, .raised ("wavStreamPlayer.connect"))
    else
      let st2 := { st1 with playerOpen := true }
      if ¬ env.clientConnectOk then (st2, .raised ("client.connect"))
      else
        let st3 := { st2 with clientOpen := true, seedSent := true }
        let st4 := if serverVad then { st3 with capturing := true } else st3
        (st4, .ok)

/-- The body of the callback `deleteConversationItem` (ConsolePage lines
226-232), over the `isConnected` value that its closure provides:
early-return when that value is `false`, otherwise forward
`client.deleteItem(id)`. It never touches the local ordered item list,
which is refreshed only from the authoritative client snapshot inside the
`conversation.updated` handler. Returns the client calls issued and the
local items list. -/
def deleteConversationItemRun (isConnected : Bool) (id : String)
    (items : List ConversationItem) : List ClientCall × List ConversationItem :=
  if isConnected then ([ClientCall.deleteItem id], items) else ([], items)

/-- The `isConnected` value the memoized `deleteConversationItem` closure
reads: the callback is built with `useCallback` and an empty dependency
array, so it is created once on the first render and permanently captures
the value the `isConnected` state had at that render, which is the initial
`useState(false)` value — the current flag is never re-read. -/
def capturedIsConnected : Bool := false

/-- The callback `deleteConversationItem` as the program actually invokes
it: the memoized closure applies the body to the captured first-render
connected flag, whatever the current connected state is. -/
def deleteConversationItemMemoized (id : String)
    (items : List ConversationItem) : List ClientCall × List ConversationItem :=
  deleteConversationItemRun capturedIsConnected id items

/-- The callback `changeTurnEndType` (ConsolePage lines 265-278): pause capture when
switching to `none` while the recorder reports `recording`; update the
turn detection of the session; restart continuous capture when switching to
`server_vad` while the client is connected; finally set the push-to-talk
flag. `value` is the toggle value, `recorderStatus` the value of
`wavRecorder.getStatus()`, `clientConnected` that of `client.isConnected()`. -/
def changeTurnEndType (value : String) (recorderStatus : String)
    (clientConnected : Bool) : List Action :=
  (if value = "none" ∧ recorderStatus = "recording" then [Action.pauseCapture] else []) ++
    [Action.updateSessionTurnDetection (value ≠ "none")] ++
    (if value = "server_vad" ∧ clientConnected then [Action.startCapture] else []) ++
    [Action.setCanPushToTalk (value = "none")]

/-- The `set_memory` tool handler (ConsolePage lines 393-421): functional
update of the memory map (`{...memoryKv}` copy, then `newKv[key] = value`),
plus the `\x7b ok: true \x7d` return value of the handler (modelled by the `Bool`).
The map is modelled by its lookup function. -/
def setMemoryToolHandler (memoryKv : String → Option String)
    (key value : String) : (String → Option String) × Bool :=
  (fun k => if k = key then some value else memoryKv k, true)

/-- A client-sourced event used as a concrete log entry. -/
def c1EventA : RealtimeEvent :=
  { time := "00:00.01", source := EventSource.client, count := none
    eventType := "response.audio.delta" }

/-- A server-sourced event with the same `event.type` as `c1EventA`. -/
def c1EventB : RealtimeEvent :=
  { time := "00:00.02", source := EventSource.server, count := none
    eventType := "response.audio.delta" }

/-- An event whose `event.type` differs from that of `c1EventA`. -/
def c1EventC : RealtimeEvent :=
  { time := "00:00.03", source := EventSource.client, count := none
    eventType := "session.updated" }

/-- A completed conversation item carrying a 450-byte undecoded audio
buffer. -/
def c2Item : ConversationItem :=
  { id := "a1", status := "completed", formatted := { audioLen := 450, file := none } }

/-! ## Claim C1: event-log aggregation -/

/-- C1, counterexample: the claim requires a new entry to be appended when
the preceding entry has the same `typeName` but a different `source`; on a
log whose last entry is the client-sourced `c1EventA`, recording the
server-sourced `c1EventB` with the same type leaves the log length at `1`
(the code aggregates on `event.type` alone and never consults `source`). -/
theorem C1_counterexample :
    c1EventA.source ≠ c1EventB.source ∧
    c1EventA.eventType = c1EventB.eventType ∧
    (recordRealtimeEvent [c1EventA] c1EventB).length = 1 := by
  refine ⟨by decide, rfl, by decide⟩

/-- C1, amended: `recordRealtimeEvent` appends unless the immediately
preceding entry has the same `typeName` — the `source` is not consulted.
In the aggregation case the log length is unchanged, the last entry keeps
its identity except for its counter, and its repeat count (one more than
the stored `count`, absent meaning seen once) is incremented; in the
differing-type case the log length grows by one and the appended entry,
which carries no counter yet, has the default repeat count `1`. -/
theorem C1_eventLog_aggregates_on_type_only (log : List RealtimeEvent)
    (e last : RealtimeEvent) (hlast : log.getLast? = some last) :
    (last.eventType = e.eventType →
      (recordRealtimeEvent log e).length = log.length ∧
      (recordRealtimeEvent log e).getLast? = some (bumpCount last) ∧
      repeatCount (bumpCount last) = repeatCount last + 1) ∧
    (last.eventType ≠ e.eventType →
      (recordRealtimeEvent log e).length = log.length + 1 ∧
      (recordRealtimeEvent log e).getLast? = some e ∧
      (e.count = none → repeatCount e = 1)) := by
  rcases List.eq_nil_or_concat log with rfl | ⟨L, b, rfl⟩
  · simp at hlast
  · rw [List.concat_eq_append] at hlast ⊢
    rw [List.getLast?_concat] at hlast
    obtain rfl : b = last := by injection hlast
    have hrec : recordRealtimeEvent (L ++ [b]) e =
        if b.eventType = e.eventType then L ++ [bumpCount b]
        else (L ++ [b]) ++ [e] := by
      simp [recordRealtimeEvent, List.getLast?_concat, List.dropLast_concat]
    constructor
    · intro hty
      rw [hrec, if_pos hty]
      refine ⟨by simp, List.getLast?_concat _, ?_⟩
      simp [repeatCount, bumpCount]
    · intro hty
      rw [hrec, if_neg hty]
      refine ⟨by simp, List.getLast?_concat _, ?_⟩
      intro hc
      simp [repeatCount, hc]

/-- C1, witness: both branches of the aggregation theorem exercised on
concrete events — aggregating `c1EventB` onto `[c1EventA]` (same type)
keeps length `1` and bumps the repeat count; recording `c1EventC` onto
`[c1EventA]` (different type) grows the log to length `2`. -/
theorem C1_eventLog_aggregates_on_type_only_witness :
    ((recordRealtimeEvent [c1EventA] c1EventB).length = 1 ∧
      repeatCount (bumpCount c1EventA) = repeatCount c1EventA + 1) ∧
    ((recordRealtimeEvent [c1EventA] c1EventC).length = 2 ∧
      (recordRealtimeEvent [c1EventA] c1EventC).getLast? = some c1EventC) := by
  have hsame := C1_eventLog_aggregates_on_type_only [c1EventA] c1EventB c1EventA (by decide)
  have hdiff := C1_eventLog_aggregates_on_type_only [c1EventA] c1EventC c1EventA (by decide)
  exact ⟨⟨(hsame.1 rfl).1, (hsame.1 rfl).2.2⟩,
         ⟨(hdiff.2 (by decide)).1, (hdiff.2 (by decide)).2.1⟩⟩

/-! ## Claim C2: decoding on item completion -/

/-- C2, counterexample: delivering the completed notification for `c2Item`
twice triggers two decode calls, not one — nothing in the handler guards on
a previous decode (`formatted.file` is overwritten unconditionally), so the
decode is not idempotent per item. -/
theorem C2_counterexample :
    (let r1 := onConversationUpdated { playerChunks := [], decodes := [] } c2Item none
     let r2 := onConversationUpdated r1.1 r1.2 none
     r2.1.decodes) = ["a1", "a1"] := by
  decide

/-- C2, amended: every delivery of a `conversation.updated` notification
whose item has status `completed` and a non-empty audio buffer triggers a
decode — the handler appends one decode per delivery, and redelivering the
completed notification for the same id decodes again (the second decode
reproduces the same `formatted.file`, so the stored state, though not the
work done, is the same). -/
theorem C2_completed_notification_redecodes (st : PlayerDecodeState)
    (item : ConversationItem) (hst : item.status = "completed")
    (ha : item.formatted.audioLen ≠ 0) :
    ((onConversationUpdated st item none).1).decodes = st.decodes ++ [item.id] ∧
    ((onConversationUpdated st item none).2).formatted.file = some item.formatted.audioLen ∧
    (let r1 := onConversationUpdated st item none
     let r2 := onConversationUpdated r1.1 r1.2 none
     r2.1.decodes = st.decodes ++ [item.id, item.id] ∧
     r2.2.formatted.file = some item.formatted.audioLen) := by
  simp [onConversationUpdated, hst, ha]

/-- C2, witness: the redecode theorem applied to the concrete item `c2Item`
on the empty effect state. -/
theorem C2_completed_notification_redecodes_witness :
    ((onConversationUpdated { playerChunks := [], decodes := [] } c2Item none).1).decodes =
      [] ++ [c2Item.id] ∧
    ((onConversationUpdated { playerChunks := [], decodes := [] } c2Item none).2).formatted.file =
      some c2Item.formatted.audioLen :=
  have h := C2_completed_notification_redecodes
    { playerChunks := [], decodes := [] } c2Item rfl (by decide)
  ⟨h.1, h.2.1⟩

/-! ## Claim C3: cancellation offset after an interrupt -/

/-- C3, counterexample: when `interrupt()` reports that track `track_a1`
has played `24000` samples, one second of audio at the fixed 24000 Hz rate,
the code calls `cancelResponse` with the raw sample count `24000` — not
with the `1000` milliseconds that the 24000 Hz translation of the spec
would give. -/
theorem C3_counterexample :
    cancelCallsFor (some { trackId := "track_a1", offset := 24000 }) =
      [ClientCall.cancelResponse ("track_a1") 24000] ∧
    specOffsetMs 24000 = 1000 ∧
    (24000 : Nat) ≠ 1000 := by
  refine ⟨by decide, by decide, by decide⟩

/-- C3, amended: whenever playback interruption returns an active-track pair
(`trackId` non-empty), both call sites — the `conversation.interrupted`
handler and `startRecording` — issue exactly one `cancelResponse` for that
track, passing `samplesPlayed` through unchanged as the offset argument;
no translation into a time unit is performed. -/
theorem C3_cancel_passes_raw_sample_offset (t : TrackSampleOffset)
    (frames : List Nat) (h : t.trackId ≠ "") :
    cancelCallsFor (some t) = [ClientCall.cancelResponse t.trackId t.offset] ∧
    conversationInterruptedTrace (some t) =
      [Action.interruptPlayback,
       Action.clientCall (ClientCall.cancelResponse t.trackId t.offset)] ∧
    startRecordingTrace (some t) frames =
      [Action.setIsRecording true, Action.interruptPlayback,
       Action.clientCall (ClientCall.cancelResponse t.trackId t.offset),
       Action.startCapture] ++
        frames.map (fun f => Action.clientCall (ClientCall.appendInputAudio f)) := by
  refine ⟨?_, ?_, ?_⟩ <;>
    simp [cancelCallsFor, conversationInterruptedTrace, startRecordingTrace,
      startRecordingSetup, h]

/-- C3, witness: the raw-offset theorem applied to a concrete interrupt
result and frame list. -/
theorem C3_cancel_passes_raw_sample_offset_witness :
    cancelCallsFor (some { trackId := "track_a1", offset := 4800 }) =
      [ClientCall.cancelResponse ("track_a1") 4800] :=
  (C3_cancel_passes_raw_sample_offset
    { trackId := "track_a1", offset := 4800 } [160] (by decide)).1

/-! ## Claim C4: interrupt/cancel precede audio forwarding -/

/-- No action of the `startRecording` setup sequence forwards audio. -/
theorem startRecordingSetup_no_append (r : Option TrackSampleOffset) :
    ∀ a ∈ startRecordingSetup r, a.isAppendAudio = false := by
  intro a ha
  rcases r with _ | t
  · simp [startRecordingSetup, cancelCallsFor] at ha
    rcases ha with rfl | rfl | rfl <;> rfl
  · by_cases ht : t.trackId = ""
    · simp [startRecordingSetup, cancelCallsFor, ht] at ha
      rcases ha with rfl | rfl | rfl <;> rfl
    · simp [startRecordingSetup, cancelCallsFor, ht] at ha
      rcases ha with rfl | rfl | rfl | rfl <;> rfl

/-- Every action after the `startRecording` setup sequence is an audio
forward, hence not an interrupt or cancel. -/
theorem startRecordingSuffix_no_interrupt (frames : List Nat) :
    ∀ a ∈ frames.map (fun f => Action.clientCall (ClientCall.appendInputAudio f)),
      a.isInterruptOrCancel = false := by
  intro a ha
  obtain ⟨f, _, rfl⟩ := List.mem_map.1 ha
  rfl

/-- In any trace split into a part `P` that forwards no audio followed by a
part `S` that contains no interrupt or cancel, if some interrupt or cancel
action occurs at or after a cut position, then nothing before the cut
forwards audio. -/
theorem no_append_before_cut (P S : List Action)
    (hP : ∀ a ∈ P, a.isAppendAudio = false)
    (hS : ∀ a ∈ S, a.isInterruptOrCancel = false) (i : Nat)
    (hcut : ∃ a ∈ (P ++ S).drop i, a.isInterruptOrCancel = true) :
    ∀ a ∈ (P ++ S).take i, a.isAppendAudio = false := by
  intro a ha
  by_cases hip : i ≤ P.length
  · rw [List.take_append_of_le_length hip] at ha
    exact hP a (List.take_subset _ _ ha)
  · exfalso
    push_neg at hip
    obtain ⟨b, hb, hbi⟩ := hcut
    have hdrop : (P ++ S).drop i = S.drop (i - P.length) := by
      have hi : i = P.length + (i - P.length) := by omega
      rw [hi, List.drop_append]
      congr 1
      omega
    rw [hdrop] at hb
    have := hS b (List.drop_subset _ _ hb)
    rw [this] at hbi
    exact Bool.false_ne_true hbi

/-- C4: in the trace of `startRecording`, if an interrupt or cancel action
occurs at or after position `i`, then no `appendInputAudio` call occurs
before position `i` — the interrupt/cancel sequence completes before any
captured frame is forwarded to the remote client. -/
theorem C4_interrupt_before_any_append (r : Option TrackSampleOffset)
    (frames : List Nat) (i : Nat)
    (hcut : ∃ a ∈ (startRecordingTrace r frames).drop i,
      a.isInterruptOrCancel = true) :
    ∀ a ∈ (startRecordingTrace r frames).take i, a.isAppendAudio = false :=
  no_append_before_cut (startRecordingSetup r)
    (frames.map (fun f => Action.clientCall (ClientCall.appendInputAudio f)))
    (startRecordingSetup_no_append r) (startRecordingSuffix_no_interrupt frames)
    i hcut

/-- C4, witness: on a concrete trace with an active track and two captured
frames, a cancel occurs at or after position `2`, so the action at position
`0` forwards no audio. -/
theorem C4_interrupt_before_any_append_witness :
    (Action.setIsRecording true).isAppendAudio = false :=
  C4_interrupt_before_any_append (some { trackId := "t1", offset := 7 }) [3, 4] 2
    (by decide) (Action.setIsRecording true) (by decide)

/-! ## Claim C5: connect failure handling -/

/-- C5, counterexample: when `wavRecorder.begin()` succeeds and
`wavStreamPlayer.connect()` then fails, the recorder is left open (not
unwound), the rejection of the failing call propagates unwrapped (no
`ConnectionError` is raised in its place), and the controller retains the
connected flag set before the opens — contradicting the claim that every
already-opened sub-resource is closed and no state is retained. -/
theorem C5_counterexample :
    (connectConversation
        { recorderBeginOk := true, playerConnectOk := false, clientConnectOk := true }
        false initialState).2 = ConnectResult.raised ("wavStreamPlayer.connect") ∧
    (connectConversation
        { recorderBeginOk := true, playerConnectOk := false, clientConnectOk := true }
        false initialState).1.recorderOpen = true ∧
    (connectConversation
        { recorderBeginOk := true, playerConnectOk := false, clientConnectOk := true }
        false initialState).1.isConnected = true := by
  refine ⟨by decide, by decide, by decide⟩

/-- C5, amended: `connectConversation` has no error handling — if any of
the three awaited opens fails, the rejection of that call propagates
unchanged; no sub-resource opened earlier is closed, and the effects
performed before the opens (connected flag set, event log and memory
cleared) remain in place. -/
theorem C5_connect_failure_no_unwind (env : ConnectEnv) (vad : Bool)
    (st : ControllerState)
    (hfail : env.recorderBeginOk = false ∨ env.playerConnectOk = false ∨
      env.clientConnectOk = false) :
    (connectConversation env vad st).2 ≠ ConnectResult.ok ∧
    (connectConversation env vad st).1.isConnected = true ∧
    (connectConversation env vad st).1.realtimeEvents = [] ∧
    (connectConversation env vad st).1.memoryKv = [] ∧
    (env.recorderBeginOk = true →
      (connectConversation env vad st).1.recorderOpen = true) ∧
    (env.recorderBeginOk = true → env.playerConnectOk = true →
      (connectConversation env vad st).1.playerOpen = true) := by
  rcases env with ⟨rb, pc, cc⟩
  cases rb <;> cases pc <;> cases cc <;> simp_all [connectConversation]

/-- C5, witness: the no-unwind theorem at a concrete environment where the
playback engine fails to connect. -/
theorem C5_connect_failure_no_unwind_witness :
    (connectConversation
        { recorderBeginOk := true, playerConnectOk := false, clientConnectOk := true }
        false initialState).2 ≠ ConnectResult.ok ∧
    (connectConversation
        { recorderBeginOk := true, playerConnectOk := false, clientConnectOk := true }
        false initialState).1.recorderOpen = true :=
  have h := C5_connect_failure_no_unwind
    { recorderBeginOk := true, playerConnectOk := false, clientConnectOk := true }
    false initialState (Or.inr (Or.inl rfl))
  ⟨h.1, h.2.2.2.2.1 rfl⟩

/-! ## Claim C6: cancellation failure inside the interrupted handler -/

/-- C6, counterexample: with an active track and a failing `cancelResponse`,
the `conversation.interrupted` handler ends in an error — the rejection is
not caught at the point of occurrence, nothing is logged, and the failure
escapes the handler as its rejected promise. -/
theorem C6_counterexample :
    conversationInterruptedRun (some { trackId := "track_a1", offset := 4800 }) false =
      Except.error ("cancelResponse rejected") := by
  rfl

/-- C6, amended: the `conversation.interrupted` handler wraps no `try` or
`catch` around the awaited `cancelResponse`: when the call fails for an
active track, the handler ends in the error (the rejection escapes the
async handler unlogged, leaving an unhandled rejected promise rather than
a synchronous throw into the dispatcher); when the call succeeds, the
handler completes with the interrupt followed by exactly the one cancel. -/
theorem C6_cancel_failure_escapes_handler (t : TrackSampleOffset)
    (h : t.trackId ≠ "") :
    conversationInterruptedRun (some t) false =
      Except.error ("cancelResponse rejected") ∧
    conversationInterruptedRun (some t) true =
      Except.ok [Action.interruptPlayback,
        Action.clientCall (ClientCall.cancelResponse t.trackId t.offset)] := by
  constructor <;> simp [conversationInterruptedRun, h]

/-- C6, witness: the escape theorem at a concrete active track. -/
theorem C6_cancel_failure_escapes_handler_witness :
    conversationInterruptedRun (some { trackId := "track_a1", offset := 4800 }) true =
      Except.ok [Action.interruptPlayback,
        Action.clientCall (ClientCall.cancelResponse ("track_a1") 4800)] :=
  (C6_cancel_failure_escapes_handler
    { trackId := "track_a1", offset := 4800 } (by decide)).2

/-! ## Claim C7: deleteItem guard -/

/-- C7: evaluation of the code at the failing input. In a connected
session, invoking the memoized `deleteConversationItem` on a concrete id
still issues no client call and leaves the local list unchanged, because
the memoized closure reads the captured first-render connected flag
(`false`) instead of the live one — while the body itself, had it received
the live flag `true`, would forward exactly the `deleteItem` call the claim
(and, plainly, the body text `if (!isConnected) return; client.deleteItem(id)`)
intends. The disconnected no-op half of the claim does hold. -/
theorem C7_memoized_delete_never_forwards :
    deleteConversationItemMemoized ("item_1") [] = ([], []) ∧
    capturedIsConnected = false ∧
    deleteConversationItemRun false ("item_1") [] = ([], []) ∧
    deleteConversationItemRun true ("item_1") [] =
      ([ClientCall.deleteItem ("item_1")], []) := by
  refine ⟨rfl, rfl, rfl, rfl⟩

/-! ## Claim C8: mid-session turn-mode switch -/

/-- C8: switching to manual (`none`) while the recorder reports `recording`
pauses capture exactly once, before the session option update, and issues
no response request; switching to `server_vad` while the client is
connected (re)starts continuous capture; every other switch performs
neither a pause nor a record. -/
theorem C8_changeTurnEndType_cases (value recorderStatus : String)
    (clientConnected : Bool) :
    (value = "none" → recorderStatus = "recording" →
      changeTurnEndType value recorderStatus clientConnected =
        [Action.pauseCapture, Action.updateSessionTurnDetection false,
         Action.setCanPushToTalk true]) ∧
    (value = "server_vad" → clientConnected = true →
      changeTurnEndType value recorderStatus clientConnected =
        [Action.updateSessionTurnDetection true, Action.startCapture,
         Action.setCanPushToTalk false]) ∧
    (¬ (value = "none" ∧ recorderStatus = "recording") →
     ¬ (value = "server_vad" ∧ clientConnected = true) →
      changeTurnEndType value recorderStatus clientConnected =
        [Action.updateSessionTurnDetection (value ≠ "none"),
         Action.setCanPushToTalk (value = "none")]) := by
  refine ⟨?_, ?_, ?_⟩
  · rintro rfl rfl
    cases clientConnected <;> rfl
  · rintro rfl rfl
    by_cases hr : recorderStatus = "recording" <;>
      simp [changeTurnEndType, hr]
  · intro h1 h2
    simp only [changeTurnEndType]
    rw [if_neg h1, if_neg ?hg]
    · simp
    · intro hc
      exact h2 ⟨hc.1, hc.2⟩

/-- C8, witness: the manual-switch branch while recording and the
automatic-switch branch while connected, at concrete inputs. -/
theorem C8_changeTurnEndType_cases_witness :
    changeTurnEndType ("none") ("recording") true =
      [Action.pauseCapture, Action.updateSessionTurnDetection false,
       Action.setCanPushToTalk true] ∧
    changeTurnEndType ("server_vad") ("paused") true =
      [Action.updateSessionTurnDetection true, Action.startCapture,
       Action.setCanPushToTalk false] :=
  ⟨(C8_changeTurnEndType_cases ("none") ("recording") true).1 rfl rfl,
   (C8_changeTurnEndType_cases ("server_vad") ("paused") true).2.1 rfl rfl⟩

/-! ## Claim C9: no-track interrupt outcome -/

/-- C9: when playback interruption yields no active track, no
`cancelResponse` is issued from either invocation site — the
`conversation.interrupted` handler completes normally with just the
interrupt (whatever the would-be cancel outcome), and the only
interrupt-or-cancel action in the whole `startRecording` trace is the
interrupt itself, after which capture proceeds. -/
theorem C9_no_track_is_valid (frames : List Nat) (cancelOk : Bool) :
    cancelCallsFor none = [] ∧
    conversationInterruptedRun none cancelOk = Except.ok [Action.interruptPlayback] ∧
    (startRecordingTrace none frames).filter Action.isInterruptOrCancel =
      [Action.interruptPlayback] ∧
    startRecordingTrace none frames =
      [Action.setIsRecording true, Action.interruptPlayback, Action.startCapture] ++
        frames.map (fun f => Action.clientCall (ClientCall.appendInputAudio f)) := by
  refine ⟨rfl, rfl, ?_, ?_⟩
  · simp [startRecordingTrace, startRecordingSetup, cancelCallsFor,
      List.filter_append, Action.isInterruptOrCancel]
  · simp [startRecordingTrace, startRecordingSetup, cancelCallsFor]

/-! ## Claim C10: set_memory tool handler -/

/-- C10: the `set_memory` tool handler returns `ok = true` and updates the
memory map functionally — the key is bound to the new value, every other
key keeps its previous binding, and no key present before is removed. -/
theorem C10_set_memory_frame (kv : String → Option String)
    (key value k : String) :
    (setMemoryToolHandler kv key value).2 = true ∧
    (setMemoryToolHandler kv key value).1 key = some value ∧
    (k ≠ key → (setMemoryToolHandler kv key value).1 k = kv k) ∧
    (kv k ≠ none → (setMemoryToolHandler kv key value).1 k ≠ none) := by
  refine ⟨rfl, by simp [setMemoryToolHandler], ?_, ?_⟩
  · intro hk
    simp [setMemoryToolHandler, hk]
  · intro hk
    by_cases h : k = key <;> simp [setMemoryToolHandler, h]
    exact hk

/-- C10, witness: storing a value under `name` on the empty map keeps an
unrelated key `role` absent and retrievable facts intact. -/
theorem C10_set_memory_frame_witness :
    (setMemoryToolHandler (fun _ => none) ("name") ("Ada")).2 = true ∧
    (setMemoryToolHandler (fun _ => none) ("name") ("Ada")).1 ("name") =
      some ("Ada") ∧
    (setMemoryToolHandler (fun _ => none) ("name") ("Ada")).1 ("role") = none :=
  have h := C10_set_memory_frame (fun _ => none) ("name") ("Ada") ("role")
  ⟨h.1, h.2.1, h.2.2.1 (by decide)⟩

end IntraView
